import Mathlib

/-!
Verification of `scripts/resize-cocktail-images.py`: a batch image normalizer
that reads every `.jpg/.jpeg/.png/.webp` file from a source directory,
flattens alpha onto white, resize-crops to 400x400 with `ImageOps.fit`,
and writes optimized JPEGs to a destination directory.

The script is shallowly embedded below.  PIL library calls (`Image.paste`
with a mask, `ImageOps.fit`, mode conversion) are embedded from the
library's documented arithmetic (the 8-bit blend `MULDIV255` rounding, the
crop-box computation of `ImageOps.fit` with the default bleed 0 and
centering (0.5, 0.5)).  Filesystem and process behaviour (the per-file
`except Exception` handler, the top-level `KeyboardInterrupt` handler,
exit codes) are embedded as pure state passing.
-/

namespace FoodMe

/-! ## Path helpers: `pathlib.PurePath.suffix` / `.stem` semantics -/

/-- Index of the last `.` in a character list, if any. -/
def lastDotIdx (cs : List Char) : Option Nat :=
  (List.range cs.length).foldl
    (fun acc i => if cs.getD i ' ' = '.' then some i else acc) none

/-- `pathlib` `suffix`: the substring from the final dot, but only when the
dot is neither the first nor the last character of the name (so `.hidden`
and `name.` have empty suffix). -/
def pathSuffix (name : String) : String :=
  let cs := name.toList
  match lastDotIdx cs with
  | some i => if 0 < i ∧ i < cs.length - 1 then String.mk (cs.drop i) else ""
  | none => ""

/-- Python `str.lower()` on filenames (ASCII case folding, which covers
the extension comparison on line 24). -/
def strLower (s : String) : String := String.mk (s.toList.map Char.toLower)

/-- `pathlib` `stem`: the name with `pathSuffix` removed. -/
def pathStem (name : String) : String :=
  let cs := name.toList
  match lastDotIdx cs with
  | some i => if 0 < i ∧ i < cs.length - 1 then String.mk (cs.take i) else name
  | none => name

/-! ## Image model -/

/-- PIL color modes relevant to the script: the two alpha modes handled
specially on lines 33-36, `RGB` (left unchanged), and the remaining modes
(grayscale, palette, CMYK) that go through `convert('RGB')` on line 38. -/
inductive Mode
  | RGB | RGBA | LA | L | P | CMYK
  deriving DecidableEq, Repr

/-- A pixel value; the constructor matches the image's mode. -/
inductive Pix
  | rgb (r g b : Nat)
  | rgba (r g b a : Nat)
  | la (l a : Nat)
  | gray (l : Nat)
  | other (vals : List Nat)
  deriving DecidableEq, Repr

/-- An in-memory image: mode, pixel dimensions, and pixel contents. -/
structure Image where
  mode : Mode
  width : Nat
  height : Nat
  px : Nat → Nat → Pix

/-- PIL `MULDIV255(a, b, tmp)`: rounding 8-bit multiply
`tmp := a*b + 128; ((tmp >> 8) + tmp) >> 8`. -/
def muldiv255 (a b : Nat) : Nat :=
  let tmp := a * b + 128
  (tmp / 256 + tmp) / 256

/-- PIL `BLEND(mask, dst, src)` for an 8-bit mask, as used by
`Image.paste(src, mask=m)`: `MULDIV255(dst, 255-mask) + MULDIV255(src, mask)`. -/
def blendChan (mask src dst : Nat) : Nat :=
  muldiv255 dst (255 - mask) + muldiv255 src mask

/-- Channel-dropping conversion of a single pixel to RGB, as PIL's
`convert('RGB')` does for L/LA (replicate luminance) and RGBA (drop alpha);
palette and CMYK conversion is abstracted to its first stored channel
(no claim inspects those values). -/
def rgbOf : Pix → Pix
  | .rgb r g b => .rgb r g b
  | .rgba r g b _ => .rgb r g b
  | .la l _ => .rgb l l l
  | .gray l => .rgb l l l
  | .other vs => .rgb (vs.getD 0 0) (vs.getD 0 0) (vs.getD 0 0)

/-- Lines 33-38 of the script.  For `RGBA`: a white RGB canvas of the same
size is created and the image is pasted with `mask=img.split()[-1]` (the
alpha band), so each channel is PIL-blended against 255.  For `LA`: the
image is pasted with `mask=None` (the conditional expression on line 35
yields `None`), a full overwrite by the RGB-converted pixels.  For `RGB`:
unchanged.  Otherwise: `img.convert('RGB')`. -/
def flattenToRGB (img : Image) : Image :=
  match img.mode with
  | .RGBA =>
      { mode := .RGB, width := img.width, height := img.height,
        px := fun x y =>
          match img.px x y with
          | .rgba r g b a =>
              .rgb (blendChan a r 255) (blendChan a g 255) (blendChan a b 255)
          | p => p }
  | .LA =>
      { mode := .RGB, width := img.width, height := img.height,
        px := fun x y =>
          match img.px x y with
          | .la l _ => .rgb l l l
          | p => p }
  | .RGB => img
  | _ =>
      { mode := .RGB, width := img.width, height := img.height,
        px := fun x y => rgbOf (img.px x y) }

/-! ## `ImageOps.fit` crop geometry -/

/-- A crop box in image coordinates, as passed to `Image.resize(box=...)`. -/
structure Rect where
  left : ℚ
  top : ℚ
  right : ℚ
  bottom : ℚ
  deriving DecidableEq, Repr

/-- Resampling filters; the script passes `Image.Resampling.LANCZOS`. -/
inductive Resample
  | lanczos | bicubic | bilinear | nearest
  deriving DecidableEq, Repr

/-- The crop box computed by `PIL.ImageOps.fit(image, (tw, th))` with the
default `bleed=0.0` and `centering=(0.5, 0.5)`: the largest region of the
source with the target aspect ratio, centered. -/
def fitBox (w h tw th : ℚ) : Rect :=
  let liveRatio := w / h
  let outRatio := tw / th
  let cw := if liveRatio = outRatio then w
            else if outRatio ≤ liveRatio then h * outRatio else w
  let ch := if liveRatio = outRatio then h
            else if outRatio ≤ liveRatio then h else w / outRatio
  let l := (w - cw) * (1 / 2)
  let t := (h - ch) * (1 / 2)
  ⟨l, t, l + cw, t + ch⟩

/-- The saved output of one file: the flattened source image together with
the crop box, target size and filter of `ImageOps.fit` (line 41), and the
encoder settings of `save(..., 'JPEG', quality=85, optimize=True)`
(line 45). -/
structure Jpeg where
  src : Image
  box : Rect
  size : Nat × Nat
  method : Resample
  format : String
  quality : Nat
  optimize : Bool

/-- Line 41: `ImageOps.fit(img, (400, 400), Image.Resampling.LANCZOS)`,
followed by the `save` settings of line 45. -/
def fitJpeg (img : Image) : Jpeg :=
  { src := img,
    box := fitBox (img.width : ℚ) (img.height : ℚ) 400 400,
    size := (400, 400),
    method := .lanczos,
    format := "JPEG",
    quality := 85,
    optimize := true }

/-! ## Run model: entries, per-file processing, loop, main -/

/-- A Python exception as seen by the script's handlers: `error` is any
`Exception` subclass (caught by the per-file `except Exception`);
`interrupt` is `KeyboardInterrupt`, which does NOT derive from `Exception`
and therefore passes through the per-file handler to the top level. -/
inductive PyErr
  | error (msg : String)
  | interrupt
  deriving DecidableEq, Repr

/-- One directory entry of the source directory: its filename, the result
of `Image.open` on it (an image, or the exception it raises), and the
result of the `save` call for it (success, or the exception it raises). -/
structure Entry where
  name : String
  opened : Except PyErr Image
  saveOk : Except PyErr Unit

/-- The destination filename of line 44: `f"{image_path.stem}.jpg"`. -/
def destKey (e : Entry) : String := pathStem e.name ++ ".jpg"

/-- Line 22: the extension allow-list. -/
def imageExtensions : List String := [".jpg", ".jpeg", ".png", ".webp"]

/-- Lines 23-24: keep the entries whose lowercased `suffix` is in the set. -/
def imageFiles (entries : List Entry) : List Entry :=
  entries.filter (fun f => imageExtensions.contains (strLower (pathSuffix f.name)))

/-- Lines 31-45, the body of the per-file `try`: open, flatten to RGB,
fit to 400x400, save.  Any stage may raise. -/
def processOne (e : Entry) : Except PyErr Jpeg :=
  match e.opened with
  | .error pe => .error pe
  | .ok img =>
    match e.saveOk with
    | .error pe => .error pe
    | .ok _ => .ok (fitJpeg (flattenToRGB img))

/-- The destination directory's contents: filename to written JPEG. -/
abbrev Dest := String → Option Jpeg

/-- Writing one file into the destination directory (overwrites). -/
def destWrite (d : Dest) (k : String) (j : Jpeg) : Dest :=
  fun q => if q = k then some j else d q

/-- The result of the `for` loop of lines 28-50. -/
structure LoopOut where
  log : List String
  dest : Dest
  err : Option PyErr

/-- Lines 28-50: each file's `try` body runs; `except Exception` catches
`PyErr.error`, prints the error line and continues; a `KeyboardInterrupt`
escapes the handler and aborts the loop.  `i` is the 1-based counter of
`enumerate(image_files, 1)` and `total` the printed denominator. -/
def procLoop (total : Nat) : Nat → List Entry → Dest → LoopOut
  | _, [], d => ⟨[], d, none⟩
  | i, e :: es, d =>
    match processOne e with
    | .ok j =>
        let out := procLoop total (i + 1) es (destWrite d (destKey e) j)
        ⟨("Resized " ++ toString i ++ "/" ++ toString total ++ ": " ++ e.name)
           :: out.log, out.dest, out.err⟩
    | .error (.error m) =>
        let out := procLoop total (i + 1) es d
        ⟨("Error processing " ++ e.name ++ ": " ++ m) :: out.log,
         out.dest, out.err⟩
    | .error .interrupt => ⟨[], d, some .interrupt⟩

/-- The filesystem as the script sees it: the source directory (`none` if
absent, in which case `iterdir()` raises), and the destination directory
(`none` if not yet created). -/
structure FS where
  src : Option (List Entry)
  dest : Option Dest

/-- The destination path printed in the banner (line 53). -/
def outputDirStr : String := "assets/cocktails-resized"

/-- Lines 52-54: the completion banner. -/
def bannerLines : List String :=
  ["\n✅ All images resized successfully!",
   "Resized images saved to: " ++ outputDirStr,
   "After verifying the resized images, replace the original folder."]

/-- Lines 12-54, `resize_images()`: create the destination directory with
`exist_ok=True`, enumerate and filter the source entries (raising
`FileNotFoundError` if the source directory is absent), run the loop, and
print the banner.  Returns the outcome, the filesystem, and the printed
lines. -/
def resize_images (fs : FS) : Except PyErr Unit × FS × List String :=
  let d0 : Dest := fs.dest.getD (fun _ => none)
  match fs.src with
  | none =>
      (.error (.error "No such file or directory"),
       { src := none, dest := some d0 }, [])
  | some entries =>
      let files := imageFiles entries
      let hdr := "Found " ++ toString files.length ++ " images to resize..."
      let lo := procLoop files.length 1 files d0
      match lo.err with
      | some pe =>
          (.error pe, { src := some entries, dest := some lo.dest },
           hdr :: lo.log)
      | none =>
          (.ok (), { src := some entries, dest := some lo.dest },
           hdr :: lo.log ++ bannerLines)

/-- The observable outcome of one process run. -/
structure RunOut where
  fs : FS
  log : List String
  exit : Nat

/-- Lines 56-64, the `__main__` guard: `KeyboardInterrupt` prints its own
message and exits 1; any other exception prints `❌ Error: ...` and exits 1;
falling off the end exits 0. -/
def runMain (fs : FS) : RunOut :=
  match resize_images fs with
  | (.ok _, fs1, log) => ⟨fs1, log, 0⟩
  | (.error .interrupt, fs1, log) =>
      ⟨fs1, log ++ ["\n❌ Process interrupted by user"], 1⟩
  | (.error (.error m), fs1, log) =>
      ⟨fs1, log ++ ["❌ Error: " ++ m], 1⟩

/-! ## Write bookkeeping (for the destination-directory lemmas) -/

/-- The sequence of (filename, content) writes the loop performs on a list
of files, truncated at the first `KeyboardInterrupt`. -/
def writesOf : List Entry → List (String × Jpeg)
  | [] => []
  | e :: es =>
    match processOne e with
    | .ok j => (destKey e, j) :: writesOf es
    | .error (.error _) => writesOf es
    | .error .interrupt => []

/-- Applying a sequence of writes to a destination directory in order. -/
def applyWrites (ws : List (String × Jpeg)) (d : Dest) : Dest :=
  ws.foldl (fun d' w => destWrite d' w.1 w.2) d

/-- The last write to a given filename in a write sequence, if any. -/
def lastWrite : List (String × Jpeg) → String → Option Jpeg
  | [], _ => none
  | w :: ws, q =>
    match lastWrite ws q with
    | some v => some v
    | none => if q = w.1 then some w.2 else none

/-! ## Basic lemmas -/

theorem muldiv255_zero (s : Nat) : muldiv255 s 0 = 0 := by
  simp [muldiv255]

theorem muldiv255_full : muldiv255 255 255 = 255 := by decide

/-- Pasting with mask value 0 leaves the destination channel untouched. -/
theorem blendChan_zero_mask (s : Nat) : blendChan 0 s 255 = 255 := by
  simp [blendChan, muldiv255_zero, muldiv255_full]

/-- The mode-normalization step always yields an RGB image. -/
theorem flattenToRGB_mode (img : Image) : (flattenToRGB img).mode = Mode.RGB := by
  cases img with
  | mk m w h p => cases m <;> rfl

/-- The mode-normalization step preserves pixel dimensions. -/
theorem flattenToRGB_dims (img : Image) :
    (flattenToRGB img).width = img.width ∧ (flattenToRGB img).height = img.height := by
  cases img with
  | mk m w h p => cases m <;> exact ⟨rfl, rfl⟩

/-- With a square 400x400 target, default bleed and centering, the
`ImageOps.fit` crop box is the centered square of side `min W H`. -/
theorem fitBox_square (W H : ℚ) (hW : 0 < W) (hH : 0 < H) :
    fitBox W H 400 400 =
      ⟨(W - min W H) / 2, (H - min W H) / 2,
       (W - min W H) / 2 + min W H, (H - min W H) / 2 + min W H⟩ := by
  have h1 : (400 : ℚ) / 400 = 1 := by norm_num
  have hH0 : H ≠ 0 := hH.ne'
  simp only [fitBox, h1]
  split_ifs with hc hle
  · have hWH : W = H := by field_simp at hc; exact hc
    subst hWH
    simp only [min_self, Rect.mk.injEq]
    exact ⟨by ring, by ring, by ring, by ring⟩
  · have hHW : H ≤ W := (one_le_div hH).mp hle
    simp only [min_eq_right hHW, Rect.mk.injEq]
    exact ⟨by ring, by ring, by ring, by ring⟩
  · have hWH : W < H := (div_lt_one hH).mp (not_le.mp hle)
    simp only [min_eq_left hWH.le, Rect.mk.injEq]
    exact ⟨by ring, by ring, by ring, by ring⟩

/-- Claim C3: the resize step uses Lanczos resampling toward a 400x400
target; the crop box is the centered square of side `min(width, height)`
(so the horizontal and vertical scale factors agree: no aspect-ratio
distortion), the implied uniform scale factor is `400 / min(width, height)`
(the crop side maps exactly onto 400), and in the coordinates of the scaled
image the crop offsets are exactly the centered offsets
`(scaledDim - 400) / 2`, i.e. scale-to-shorter-side-400 followed by a
centered crop of the longer dimension. -/
theorem C3_fit_geometry (img : Image) (hw : 0 < img.width) (hh : 0 < img.height) :
    (fitJpeg img).method = Resample.lanczos ∧
    (fitJpeg img).size = (400, 400) ∧
    ((fitJpeg img).box.right - (fitJpeg img).box.left
        = min (img.width : ℚ) (img.height : ℚ) ∧
     (fitJpeg img).box.bottom - (fitJpeg img).box.top
        = min (img.width : ℚ) (img.height : ℚ)) ∧
    (fitJpeg img).box.left
        = ((img.width : ℚ) - min (img.width : ℚ) (img.height : ℚ)) / 2 ∧
    (fitJpeg img).box.top
        = ((img.height : ℚ) - min (img.width : ℚ) (img.height : ℚ)) / 2 ∧
    min (img.width : ℚ) (img.height : ℚ)
        * (400 / min (img.width : ℚ) (img.height : ℚ)) = 400 ∧
    (fitJpeg img).box.left * (400 / min (img.width : ℚ) (img.height : ℚ))
        = ((img.width : ℚ) * (400 / min (img.width : ℚ) (img.height : ℚ)) - 400) / 2 ∧
    (fitJpeg img).box.top * (400 / min (img.width : ℚ) (img.height : ℚ))
        = ((img.height : ℚ) * (400 / min (img.width : ℚ) (img.height : ℚ)) - 400) / 2 := by
  have hW : (0 : ℚ) < img.width := by exact_mod_cast hw
  have hH : (0 : ℚ) < img.height := by exact_mod_cast hh
  have hm : (0 : ℚ) < min (img.width : ℚ) (img.height : ℚ) := lt_min hW hH
  have hm0 : min (img.width : ℚ) (img.height : ℚ) ≠ 0 := hm.ne'
  have hbox : (fitJpeg img).box =
      ⟨((img.width : ℚ) - min (img.width : ℚ) (img.height : ℚ)) / 2,
       ((img.height : ℚ) - min (img.width : ℚ) (img.height : ℚ)) / 2,
       ((img.width : ℚ) - min (img.width : ℚ) (img.height : ℚ)) / 2
         + min (img.width : ℚ) (img.height : ℚ),
       ((img.height : ℚ) - min (img.width : ℚ) (img.height : ℚ)) / 2
         + min (img.width : ℚ) (img.height : ℚ)⟩ := fitBox_square _ _ hW hH
  refine ⟨rfl, rfl, ⟨?_, ?_⟩, ?_, ?_, ?_, ?_, ?_⟩
  · rw [hbox]; ring
  · rw [hbox]; ring
  · rw [hbox]
  · rw [hbox]
  · field_simp
  · rw [hbox]
    field_simp
    ring
  · rw [hbox]
    field_simp
    ring

/-- Witness for C3 at a concrete 500x300 RGB image. -/
def img3 : Image := ⟨.RGB, 500, 300, fun _ _ => .rgb 0 0 0⟩

theorem C3_fit_geometry_witness :
    (fitJpeg img3).method = Resample.lanczos ∧
    (fitJpeg img3).size = (400, 400) ∧
    ((fitJpeg img3).box.right - (fitJpeg img3).box.left
        = min (img3.width : ℚ) (img3.height : ℚ) ∧
     (fitJpeg img3).box.bottom - (fitJpeg img3).box.top
        = min (img3.width : ℚ) (img3.height : ℚ)) ∧
    (fitJpeg img3).box.left
        = ((img3.width : ℚ) - min (img3.width : ℚ) (img3.height : ℚ)) / 2 ∧
    (fitJpeg img3).box.top
        = ((img3.height : ℚ) - min (img3.width : ℚ) (img3.height : ℚ)) / 2 ∧
    min (img3.width : ℚ) (img3.height : ℚ)
        * (400 / min (img3.width : ℚ) (img3.height : ℚ)) = 400 ∧
    (fitJpeg img3).box.left * (400 / min (img3.width : ℚ) (img3.height : ℚ))
        = ((img3.width : ℚ) * (400 / min (img3.width : ℚ) (img3.height : ℚ)) - 400) / 2 ∧
    (fitJpeg img3).box.top * (400 / min (img3.width : ℚ) (img3.height : ℚ))
        = ((img3.height : ℚ) * (400 / min (img3.width : ℚ) (img3.height : ℚ)) - 400) / 2 :=
  C3_fit_geometry img3 (by decide) (by decide)

/-! ## Claim C1: alpha flattening -/

/-- A 1x1 grayscale-with-alpha image whose only pixel is black and fully
transparent. -/
def imgLAc : Image := ⟨.LA, 1, 1, fun _ _ => .la 0 0⟩

/-- Claim C1, counterexample: for a grayscale-with-alpha (`LA`) input the
script pastes with `mask=None` (line 35), ignoring the alpha channel, so a
fully transparent black pixel stays black instead of becoming white. -/
theorem C1_counterexample :
    imgLAc.mode = Mode.LA ∧ imgLAc.px 0 0 = Pix.la 0 0 ∧
    (flattenToRGB imgLAc).px 0 0 = Pix.rgb 0 0 0 ∧
    (flattenToRGB imgLAc).px 0 0 ≠ Pix.rgb 255 255 255 := by
  refine ⟨rfl, rfl, rfl, ?_⟩
  decide

/-- Claim C1 (amended): the flattening step produces a true-color image of
the same pixel dimensions; for `RGBA` inputs it composites onto an opaque
white canvas with the alpha band as blend mask, so a fully transparent
pixel becomes white (255,255,255); for `LA` inputs the paste uses no mask,
so the alpha channel is ignored and every pixel takes its gray value
replicated into RGB. -/
theorem C1_flatten_amended (img : Image) (x y r g b l a : Nat) :
    ((flattenToRGB img).mode = Mode.RGB ∧
     (flattenToRGB img).width = img.width ∧
     (flattenToRGB img).height = img.height) ∧
    (img.mode = Mode.RGBA → img.px x y = Pix.rgba r g b 0 →
        (flattenToRGB img).px x y = Pix.rgb 255 255 255) ∧
    (img.mode = Mode.LA → img.px x y = Pix.la l a →
        (flattenToRGB img).px x y = Pix.rgb l l l) := by
  obtain ⟨m, w, h, p⟩ := img
  refine ⟨⟨flattenToRGB_mode _, (flattenToRGB_dims _).1, (flattenToRGB_dims _).2⟩, ?_, ?_⟩
  · intro hm hp
    subst hm
    simp only [flattenToRGB] at hp ⊢
    rw [hp]
    simp [blendChan_zero_mask]
  · intro hm hp
    subst hm
    simp only [flattenToRGB] at hp ⊢
    rw [hp]

/-- 1x1 fully transparent RGBA image for the C1 witness. -/
def imgRGBAw : Image := ⟨.RGBA, 1, 1, fun _ _ => .rgba 7 8 9 0⟩

/-- 1x1 grayscale-with-alpha image for the C1 witness. -/
def imgLAw : Image := ⟨.LA, 1, 1, fun _ _ => .la 5 0⟩

theorem C1_flatten_amended_witness :
    (((flattenToRGB imgRGBAw).mode = Mode.RGB ∧
      (flattenToRGB imgRGBAw).width = imgRGBAw.width ∧
      (flattenToRGB imgRGBAw).height = imgRGBAw.height) ∧
     (imgRGBAw.mode = Mode.RGBA → imgRGBAw.px 0 0 = Pix.rgba 7 8 9 0 →
        (flattenToRGB imgRGBAw).px 0 0 = Pix.rgb 255 255 255) ∧
     (imgRGBAw.mode = Mode.LA → imgRGBAw.px 0 0 = Pix.la 5 0 →
        (flattenToRGB imgRGBAw).px 0 0 = Pix.rgb 5 5 5)) ∧
    (flattenToRGB imgRGBAw).px 0 0 = Pix.rgb 255 255 255 ∧
    (flattenToRGB imgLAw).px 0 0 = Pix.rgb 5 5 5 :=
  ⟨C1_flatten_amended imgRGBAw 0 0 7 8 9 5 0,
   (C1_flatten_amended imgRGBAw 0 0 7 8 9 5 0).2.1 rfl rfl,
   (C1_flatten_amended imgLAw 0 0 7 8 9 5 0).2.2 rfl rfl⟩

/-! ## Claim C2: output invariant -/

/-- Claim C2: every successfully processed file yields an output saved as
JPEG (quality 85, optimized) whose underlying image is true-color RGB with
target dimensions exactly 400x400, written under the name
`<input-stem>.jpg` (the input's extension plays no part in the output
name). -/
theorem C2_output_invariant (e : Entry) (j : Jpeg)
    (h : processOne e = Except.ok j) :
    j.size = (400, 400) ∧ j.src.mode = Mode.RGB ∧ j.format = "JPEG" ∧
    j.quality = 85 ∧ j.optimize = true ∧
    destKey e = pathStem e.name ++ ".jpg" := by
  cases ho : e.opened with
  | error pe => simp [processOne, ho] at h
  | ok img =>
    cases hs : e.saveOk with
    | error pe => simp [processOne, ho, hs] at h
    | ok u =>
      have hj : j = fitJpeg (flattenToRGB img) := by
        simp [processOne, ho, hs] at h
        exact h.symm
      subst hj
      exact ⟨rfl, flattenToRGB_mode _, rfl, rfl, rfl, rfl⟩

/-- A concrete 640x480 RGB image and entry for the C2 witness. -/
def imgRGBw : Image := ⟨.RGB, 640, 480, fun _ _ => .rgb 1 2 3⟩

def entW : Entry := ⟨"photo.PNG", .ok imgRGBw, .ok ()⟩

def jW : Jpeg := fitJpeg (flattenToRGB imgRGBw)

theorem C2_output_invariant_witness :
    jW.size = (400, 400) ∧ jW.src.mode = Mode.RGB ∧ jW.format = "JPEG" ∧
    jW.quality = 85 ∧ jW.optimize = true ∧
    destKey entW = pathStem entW.name ++ ".jpg" :=
  C2_output_invariant entW jW rfl

/-! ## Loop lemmas -/

/-- If no file in the list raises `KeyboardInterrupt`, the loop runs to
completion. -/
theorem procLoop_err_none (total : Nat) (es : List Entry)
    (hno : ∀ e ∈ es, processOne e ≠ Except.error PyErr.interrupt) :
    ∀ (i : Nat) (d : Dest), (procLoop total i es d).err = none := by
  induction es with
  | nil => intro i d; rfl
  | cons e es ih =>
    intro i d
    have hne := hno e (List.mem_cons_self e es)
    have hno' : ∀ e' ∈ es, processOne e' ≠ Except.error PyErr.interrupt :=
      fun e' he' => hno e' (List.mem_cons_of_mem _ he')
    cases hpe : processOne e with
    | ok j => simp [procLoop, hpe, ih hno']
    | error pe =>
      cases pe with
      | error m => simp [procLoop, hpe, ih hno']
      | interrupt => exact absurd hpe hne

/-- If some file in the list raises `KeyboardInterrupt`, the loop aborts
with it. -/
theorem procLoop_err_int (total : Nat) (es : List Entry) (e : Entry)
    (he : e ∈ es) (hint : processOne e = Except.error PyErr.interrupt) :
    ∀ (i : Nat) (d : Dest), (procLoop total i es d).err = some PyErr.interrupt := by
  induction es with
  | nil => cases he
  | cons a es ih =>
    intro i d
    rcases List.mem_cons.mp he with rfl | hmem
    · simp [procLoop, hint]
    · cases hpa : processOne a with
      | ok j => simp [procLoop, hpa, ih hmem]
      | error pe =>
        cases pe with
        | error m => simp [procLoop, hpa, ih hmem]
        | interrupt => simp [procLoop, hpa]

/-- Without an interrupt, the loop prints exactly one line per file. -/
theorem procLoop_log_length (total : Nat) (es : List Entry)
    (hno : ∀ e ∈ es, processOne e ≠ Except.error PyErr.interrupt) :
    ∀ (i : Nat) (d : Dest), (procLoop total i es d).log.length = es.length := by
  induction es with
  | nil => intro i d; rfl
  | cons e es ih =>
    intro i d
    have hne := hno e (List.mem_cons_self e es)
    have hno' : ∀ e' ∈ es, processOne e' ≠ Except.error PyErr.interrupt :=
      fun e' he' => hno e' (List.mem_cons_of_mem _ he')
    cases hpe : processOne e with
    | ok j => simp [procLoop, hpe, ih hno']
    | error pe =>
      cases pe with
      | error m => simp [procLoop, hpe, ih hno']
      | interrupt => exact absurd hpe hne

/-- Without an interrupt, each failing file's error line is printed. -/
theorem procLoop_err_line (total : Nat) (es : List Entry) (e : Entry) (m : String)
    (hno : ∀ e' ∈ es, processOne e' ≠ Except.error PyErr.interrupt)
    (he : e ∈ es) (hm : processOne e = Except.error (PyErr.error m)) :
    ∀ (i : Nat) (d : Dest),
      ("Error processing " ++ e.name ++ ": " ++ m) ∈ (procLoop total i es d).log := by
  induction es with
  | nil => cases he
  | cons a es ih =>
    intro i d
    have hno' : ∀ e' ∈ es, processOne e' ≠ Except.error PyErr.interrupt :=
      fun e' he' => hno e' (List.mem_cons_of_mem _ he')
    rcases List.mem_cons.mp he with rfl | hmem
    · simp [procLoop, hm]
    · cases hpa : processOne a with
      | ok j => simp [procLoop, hpa]; right; exact ih hno' hmem _ _
      | error pe =>
        cases pe with
        | error m' => simp [procLoop, hpa]; right; exact ih hno' hmem _ _
        | interrupt =>
          exact absurd hpa (hno a (List.mem_cons_self a es))

/-- The loop's final destination directory is the initial one with the
(success) writes applied in order. -/
theorem procLoop_dest (total : Nat) (es : List Entry) :
    ∀ (i : Nat) (d : Dest), (procLoop total i es d).dest = applyWrites (writesOf es) d := by
  induction es with
  | nil => intro i d; rfl
  | cons e es ih =>
    intro i d
    cases hpe : processOne e with
    | ok j => simp [procLoop, hpe, writesOf, applyWrites, ih]
    | error pe =>
      cases pe with
      | error m => simp [procLoop, hpe, writesOf, applyWrites, ih]
      | interrupt => simp [procLoop, hpe, writesOf, applyWrites]

/-- The loop's log and abort status do not depend on the initial contents
of the destination directory. -/
theorem procLoop_dest_indep (total : Nat) (es : List Entry) :
    ∀ (i : Nat) (d d' : Dest),
      (procLoop total i es d).log = (procLoop total i es d').log ∧
      (procLoop total i es d).err = (procLoop total i es d').err := by
  induction es with
  | nil => intro i d d'; exact ⟨rfl, rfl⟩
  | cons e es ih =>
    intro i d d'
    cases hpe : processOne e with
    | ok j =>
      have h := ih (i + 1) (destWrite d (destKey e) j) (destWrite d' (destKey e) j)
      simp [procLoop, hpe, h.1, h.2]
    | error pe =>
      cases pe with
      | error m =>
        have h := ih (i + 1) d d'
        simp [procLoop, hpe, h.1, h.2]
      | interrupt => simp [procLoop, hpe]

/-- Reading the destination directory after a write sequence: the last
write to the name wins, otherwise the original content shows through. -/
theorem applyWrites_apply (ws : List (String × Jpeg)) :
    ∀ (d : Dest) (q : String),
      applyWrites ws d q =
        match lastWrite ws q with
        | some v => some v
        | none => d q := by
  induction ws with
  | nil => intro d q; rfl
  | cons w ws ih =>
    intro d q
    have hstep : applyWrites (w :: ws) d = applyWrites ws (destWrite d w.1 w.2) := rfl
    rw [hstep, ih]
    cases h : lastWrite ws q with
    | some v => simp [lastWrite, h]
    | none =>
      simp only [lastWrite, h, destWrite]
      by_cases hq : q = w.1 <;> simp [hq]

/-- Replaying the same write sequence is a no-op. -/
theorem applyWrites_idem (ws : List (String × Jpeg)) (d : Dest) :
    applyWrites ws (applyWrites ws d) = applyWrites ws d := by
  funext q
  rw [applyWrites_apply, applyWrites_apply]
  cases h : lastWrite ws q with
  | some v => simp [h]
  | none => simp [h, applyWrites_apply]

/-- A name never written by any successful file keeps its prior content. -/
theorem lastWrite_writesOf_none (es : List Entry) (k : String)
    (hk : ∀ e ∈ es, destKey e = k → ∀ j, processOne e ≠ Except.ok j) :
    lastWrite (writesOf es) k = none := by
  induction es with
  | nil => rfl
  | cons e es ih =>
    have hk' : ∀ e' ∈ es, destKey e' = k → ∀ j, processOne e' ≠ Except.ok j :=
      fun e' he' => hk e' (List.mem_cons_of_mem _ he')
    cases hpe : processOne e with
    | ok j =>
      have hne : k ≠ destKey e := by
        intro hkk
        exact hk e (List.mem_cons_self e es) hkk.symm j hpe
      simp [writesOf, hpe, lastWrite, ih hk', hne]
    | error pe =>
      cases pe with
      | error m => simp [writesOf, hpe, ih hk']
      | interrupt => simp [writesOf, hpe, lastWrite]

/-! ## Run-level lemmas -/

/-- A missing source directory: the destination is still created, the
generic error message is printed, and the exit code is 1. -/
theorem runMain_src_none (d : Option Dest) :
    runMain ⟨none, d⟩ =
      ⟨⟨none, some (d.getD (fun _ => none))⟩,
       ["❌ Error: No such file or directory"], 1⟩ := rfl

/-- Characterization of a run that is not interrupted. -/
theorem runMain_normal (es : List Entry) (dst : Option Dest)
    (hno : ∀ e ∈ imageFiles es, processOne e ≠ Except.error PyErr.interrupt) :
    runMain ⟨some es, dst⟩ =
      ⟨⟨some es, some ((procLoop (imageFiles es).length 1 (imageFiles es)
            (dst.getD (fun _ => none))).dest)⟩,
       ("Found " ++ toString (imageFiles es).length ++ " images to resize...")
         :: ((procLoop (imageFiles es).length 1 (imageFiles es)
            (dst.getD (fun _ => none))).log ++ bannerLines),
       0⟩ := by
  have herr := procLoop_err_none (imageFiles es).length (imageFiles es) hno 1
    (dst.getD (fun _ => none))
  simp [runMain, resize_images, herr]

/-- Characterization of an interrupted run: exit code 1 and the distinct
interruption message. -/
theorem runMain_int (es : List Entry) (dst : Option Dest) (e : Entry)
    (he : e ∈ imageFiles es)
    (hint : processOne e = Except.error PyErr.interrupt) :
    (runMain ⟨some es, dst⟩).exit = 1 ∧
    "\n❌ Process interrupted by user" ∈ (runMain ⟨some es, dst⟩).log := by
  have herr := procLoop_err_int (imageFiles es).length (imageFiles es) e he hint 1
    (dst.getD (fun _ => none))
  constructor <;> simp [runMain, resize_images, herr]

/-- After any run over an existing source directory, the destination
directory holds exactly the prior contents overwritten by the loop's
writes. -/
theorem runMain_dest_some (es : List Entry) (dst : Option Dest) :
    (runMain ⟨some es, dst⟩).fs.dest =
      some (applyWrites (writesOf (imageFiles es)) (dst.getD (fun _ => none))) := by
  have hdest := procLoop_dest (imageFiles es).length (imageFiles es) 1
    (dst.getD (fun _ => none))
  cases herr : (procLoop (imageFiles es).length 1 (imageFiles es)
      (dst.getD (fun _ => none))).err with
  | none => simp [runMain, resize_images, herr, ← hdest]
  | some pe => cases pe <;> simp [runMain, resize_images, herr, ← hdest]

/-- The run never touches the source directory component. -/
theorem runMain_src (fs : FS) : (runMain fs).fs.src = fs.src := by
  obtain ⟨s, d⟩ := fs
  cases s with
  | none => rfl
  | some es =>
    cases herr : (procLoop (imageFiles es).length 1 (imageFiles es)
        (d.getD (fun _ => none))).err with
    | none => simp [runMain, resize_images, herr]
    | some pe => cases pe <;> simp [runMain, resize_images, herr]

/-- The run's log and exit code do not depend on the initial contents of
the destination directory. -/
theorem runMain_log_exit_indep (s : Option (List Entry)) (d1 d2 : Option Dest) :
    (runMain ⟨s, d1⟩).log = (runMain ⟨s, d2⟩).log ∧
    (runMain ⟨s, d1⟩).exit = (runMain ⟨s, d2⟩).exit := by
  cases s with
  | none => exact ⟨rfl, rfl⟩
  | some es =>
    have h := procLoop_dest_indep (imageFiles es).length (imageFiles es) 1
      (d1.getD (fun _ => none)) (d2.getD (fun _ => none))
    cases herr : (procLoop (imageFiles es).length 1 (imageFiles es)
        (d2.getD (fun _ => none))).err with
    | none =>
      have herr1 := h.2.trans herr
      constructor <;> simp [runMain, resize_images, herr, herr1, h.1]
    | some pe =>
      have herr1 := h.2.trans herr
      cases pe <;> constructor <;>
        simp [runMain, resize_images, herr, herr1, h.1]

/-! ## Claims C4-C10 -/

/-- Claim C4: a per-file failure (any `Exception`) is caught inside the
loop, its `Error processing <filename>: <message>` line is printed, every
enumerated file still gets its own progress or error line (the loop prints
exactly one line per file plus the header and the banner), and the exit
code remains 0. -/
theorem C4_error_isolation (es : List Entry) (dst : Option Dest)
    (e : Entry) (m : String)
    (hno : ∀ e' ∈ imageFiles es, processOne e' ≠ Except.error PyErr.interrupt)
    (he : e ∈ imageFiles es)
    (hm : processOne e = Except.error (PyErr.error m)) :
    (runMain ⟨some es, dst⟩).exit = 0 ∧
    ("Error processing " ++ e.name ++ ": " ++ m) ∈ (runMain ⟨some es, dst⟩).log ∧
    (runMain ⟨some es, dst⟩).log.length
      = 1 + (imageFiles es).length + bannerLines.length := by
  rw [runMain_normal es dst hno]
  refine ⟨rfl, ?_, ?_⟩
  · exact List.mem_cons_of_mem _ (List.mem_append_left _
      (procLoop_err_line (imageFiles es).length (imageFiles es) e m hno he hm 1
        (dst.getD (fun _ => none))))
  · simp only [List.length_cons, List.length_append,
      procLoop_log_length (imageFiles es).length (imageFiles es) hno 1
        (dst.getD (fun _ => none))]
    omega

/-- A concrete valid image and entries for the witnesses. -/
def imgA : Image := ⟨.RGB, 3, 3, fun _ _ => .rgb 9 9 9⟩

def entA : Entry := ⟨"good.png", .ok imgA, .ok ()⟩

def entBad : Entry := ⟨"bad.jpg", .error (.error "cannot identify image file"), .ok ()⟩

def entInt : Entry := ⟨"stop.jpg", .error .interrupt, .ok ()⟩

theorem C4_error_isolation_witness :
    (runMain ⟨some [entBad, entA], none⟩).exit = 0 ∧
    ("Error processing " ++ entBad.name ++ ": " ++ "cannot identify image file")
      ∈ (runMain ⟨some [entBad, entA], none⟩).log ∧
    (runMain ⟨some [entBad, entA], none⟩).log.length
      = 1 + (imageFiles [entBad, entA]).length + bannerLines.length :=
  C4_error_isolation [entBad, entA] none entBad "cannot identify image file"
    (by
      intro e' he'
      rw [show imageFiles [entBad, entA] = [entBad, entA] from rfl] at he'
      rcases List.mem_cons.mp he' with rfl | he''
      · rw [show processOne entBad
            = Except.error (PyErr.error "cannot identify image file") from rfl]
        simp
      · rcases List.mem_cons.mp he'' with rfl | h0
        · rw [show processOne entA = Except.ok (fitJpeg (flattenToRGB imgA)) from rfl]
          simp
        · cases h0)
    (show entBad ∈ imageFiles [entBad, entA] from List.mem_cons_self _ _)
    rfl

/-- Claim C5: exit code 0 on normal completion (no interrupt reaches the
loop, however many per-file errors occurred); a `KeyboardInterrupt` raised
while processing any enumerated file is not swallowed by the per-file
handler: the run exits 1 and prints the distinct interruption message; a
missing source directory makes the run exit 1 with the generic top-level
error message. -/
theorem C5_exit_codes (es : List Entry) (dst : Option Dest) :
    ((∀ e ∈ imageFiles es, processOne e ≠ Except.error PyErr.interrupt) →
        (runMain ⟨some es, dst⟩).exit = 0) ∧
    (∀ e ∈ imageFiles es, processOne e = Except.error PyErr.interrupt →
        (runMain ⟨some es, dst⟩).exit = 1 ∧
        "\n❌ Process interrupted by user" ∈ (runMain ⟨some es, dst⟩).log) ∧
    (runMain ⟨none, dst⟩).exit = 1 ∧
    "❌ Error: No such file or directory" ∈ (runMain ⟨none, dst⟩).log := by
  refine ⟨?_, ?_, ?_, ?_⟩
  · intro hno
    rw [runMain_normal es dst hno]
  · intro e he hint
    exact runMain_int es dst e he hint
  · rw [runMain_src_none]
  · rw [runMain_src_none]
    simp

theorem C5_exit_codes_witness :
    (runMain ⟨some [entInt], (none : Option Dest)⟩).exit = 1 ∧
    "\n❌ Process interrupted by user" ∈ (runMain ⟨some [entInt], none⟩).log ∧
    (runMain ⟨none, (none : Option Dest)⟩).exit = 1 :=
  ⟨((C5_exit_codes [entInt] none).2.1 entInt
      (show entInt ∈ imageFiles [entInt] from List.mem_cons_self _ _) rfl).1,
   ((C5_exit_codes [entInt] none).2.1 entInt
      (show entInt ∈ imageFiles [entInt] from List.mem_cons_self _ _) rfl).2,
   (C5_exit_codes [entInt] none).2.2.1⟩

/-- Claim C6: the set of processed inputs is exactly the entries of the
source directory whose extension, compared case-insensitively, is one of
`.jpg`, `.jpeg`, `.png`, `.webp` (restating line 24's lowercase-membership
test as a case-insensitive comparison against the four extensions). -/
theorem C6_selection (entries : List Entry) :
    imageFiles entries =
      entries.filter (fun f =>
        [".jpg", ".jpeg", ".png", ".webp"].any
          (fun ext => strLower (pathSuffix f.name) == strLower ext)) := by
  unfold imageFiles
  apply List.filter_congr
  intro e _
  have h1 : strLower ".jpg" = ".jpg" := by decide
  have h2 : strLower ".jpeg" = ".jpeg" := by decide
  have h3 : strLower ".png" = ".png" := by decide
  have h4 : strLower ".webp" = ".webp" := by decide
  simp only [imageExtensions, h1, h2, h3, h4, List.contains, List.elem,
    List.any_cons, List.any_nil]
  rfl

/-- Two source entries with equal stems but different extensions, both of
which process successfully. -/
def img1 : Image := ⟨.RGB, 1, 1, fun _ _ => .rgb 0 0 0⟩

def img2 : Image := ⟨.RGB, 2, 2, fun _ _ => .rgb 0 0 0⟩

def entPng : Entry := ⟨"a.png", .ok img1, .ok ()⟩

def entJpg : Entry := ⟨"a.jpg", .ok img2, .ok ()⟩

def fs7 : FS := ⟨some [entPng, entJpg], none⟩

/-- Claim C7, counterexample: two distinct inputs `a.png` and `a.jpg` are
both processed successfully but share the destination name `a.jpg`, so the
second overwrites the first and the input-to-output mapping is not 1:1
(the destination holds the 2x2 input's output, not the 1x1 input's). -/
theorem C7_counterexample :
    entPng.name ≠ entJpg.name ∧
    processOne entPng = Except.ok (fitJpeg (flattenToRGB img1)) ∧
    processOne entJpg = Except.ok (fitJpeg (flattenToRGB img2)) ∧
    destKey entPng = destKey entJpg ∧
    (((runMain fs7).fs.dest.getD (fun _ => none)) "a.jpg").map (fun j => j.src.width)
      = some img2.width ∧
    (fitJpeg (flattenToRGB img2)).src.width ≠ (fitJpeg (flattenToRGB img1)).src.width := by
  exact ⟨by decide, rfl, rfl, by decide, rfl, by decide⟩

/-- Claim C7 (amended): a failed input produces no output — a destination
name that no successfully processed input maps to keeps its prior content —
and the input-to-output mapping is 1:1 up to stems: inputs with distinct
stems map to distinct output files (inputs that share a stem collide on
the same output file, as the counterexample shows). -/
theorem C7_mapping_amended (es : List Entry) (dst : Option Dest) (k : String)
    (e1 e2 : Entry)
    (hk : ∀ e ∈ imageFiles es, destKey e = k → ∀ j, processOne e ≠ Except.ok j)
    (hstem : pathStem e1.name ≠ pathStem e2.name) :
    ((runMain ⟨some es, dst⟩).fs.dest.getD (fun _ => none)) k
      = (dst.getD (fun _ => none)) k ∧
    destKey e1 ≠ destKey e2 := by
  constructor
  · rw [runMain_dest_some]
    simp only [Option.getD_some]
    rw [applyWrites_apply, lastWrite_writesOf_none (imageFiles es) k hk]
  · intro hkey
    apply hstem
    simp only [destKey] at hkey
    have hd := congrArg String.data hkey
    simp only [String.data_append] at hd
    exact String.ext (List.append_cancel_right hd)

theorem C7_mapping_amended_witness :
    ((runMain ⟨some [entBad], (none : Option Dest)⟩).fs.dest.getD (fun _ => none)) "bad.jpg"
      = ((none : Option Dest).getD (fun _ => none)) "bad.jpg" ∧
    destKey entA ≠ destKey entBad :=
  C7_mapping_amended [entBad] none "bad.jpg" entA entBad
    (by
      intro e he hkk j
      rw [show imageFiles [entBad] = [entBad] from rfl] at he
      rcases List.mem_cons.mp he with rfl | h0
      · rw [show processOne entBad
            = Except.error (PyErr.error "cannot identify image file") from rfl]
        simp
      · cases h0)
    (by decide)

/-- Claim C8: a run never modifies the source directory component of the
filesystem; the destination directory exists afterwards (created if it was
missing); and whether the destination directory already existed has no
effect on the run's output or exit code (idempotent `mkdir(exist_ok)`). -/
theorem C8_frame (fs : FS) :
    (runMain fs).fs.src = fs.src ∧
    (runMain fs).fs.dest.isSome = true ∧
    (runMain ⟨fs.src, some (fun _ => none)⟩).log = (runMain fs).log ∧
    (runMain ⟨fs.src, some (fun _ => none)⟩).exit = (runMain fs).exit := by
  refine ⟨runMain_src fs, ?_, ?_, ?_⟩
  · obtain ⟨s, d⟩ := fs
    cases s with
    | none => rfl
    | some es => rw [runMain_dest_some]; rfl
  · exact (runMain_log_exit_indep fs.src (some (fun _ => none)) fs.dest).1
  · exact (runMain_log_exit_indep fs.src (some (fun _ => none)) fs.dest).2

/-- Equality of filesystems from equality of both components. -/
theorem FS.ext_fields (a b : FS) (h1 : a.src = b.src) (h2 : a.dest = b.dest) :
    a = b := by
  cases a; cases b
  simp only at h1 h2
  rw [h1, h2]

/-- Claim C9: running the tool a second time on the unchanged source
directory, without clearing the destination, reproduces exactly the same
destination contents (the transform and encoder settings are a
deterministic function, and replaying the same writes is a no-op), the
same console output, and the same exit code. -/
theorem C9_idempotent (fs : FS) :
    (runMain (runMain fs).fs).fs.dest = (runMain fs).fs.dest ∧
    (runMain (runMain fs).fs).log = (runMain fs).log ∧
    (runMain (runMain fs).fs).exit = (runMain fs).exit := by
  obtain ⟨s, d⟩ := fs
  cases s with
  | none =>
    rw [runMain_src_none d, runMain_src_none (some (d.getD (fun _ => none)))]
    simp
  | some es =>
    have hfs1 : (runMain ⟨some es, d⟩).fs
        = ⟨some es, some (applyWrites (writesOf (imageFiles es))
            (d.getD (fun _ => none)))⟩ :=
      FS.ext_fields _ _ (runMain_src _) (runMain_dest_some es d)
    rw [hfs1]
    refine ⟨?_, ?_, ?_⟩
    · rw [runMain_dest_some]
      simp [applyWrites_idem]
    · exact (runMain_log_exit_indep (some es) _ d).1
    · exact (runMain_log_exit_indep (some es) _ d).2

/-- Claim C10: whenever the loop completes (no interrupt), the completion
banner — success line, destination line, verification reminder — is the
tail of the console output, for every source listing: also when zero files
were enumerated and when every enumerated file failed; it never implies
any file was actually resized. -/
theorem C10_banner (es : List Entry) (dst : Option Dest)
    (hno : ∀ e ∈ imageFiles es, processOne e ≠ Except.error PyErr.interrupt) :
    (runMain ⟨some es, dst⟩).exit = 0 ∧
    bannerLines.isSuffixOf (runMain ⟨some es, dst⟩).log = true := by
  rw [runMain_normal es dst hno]
  refine ⟨rfl, ?_⟩
  rw [show ("Found " ++ toString (imageFiles es).length ++ " images to resize...")
        :: ((procLoop (imageFiles es).length 1 (imageFiles es)
          (dst.getD (fun _ => none))).log ++ bannerLines)
      = (("Found " ++ toString (imageFiles es).length ++ " images to resize...")
        :: (procLoop (imageFiles es).length 1 (imageFiles es)
          (dst.getD (fun _ => none))).log) ++ bannerLines from rfl]
  simp [List.isSuffixOf]

theorem C10_banner_witness :
    (runMain ⟨some [], (none : Option Dest)⟩).exit = 0 ∧
    bannerLines.isSuffixOf (runMain ⟨some [], none⟩).log = true :=
  C10_banner [] none (by intro e he; cases he)

end FoodMe
